import Mathlib

/-!
# Verification of the EV charging planner and demand forecaster

A shallow embedding, over the rationals, of the decision core of the
JunctionHackathon EV-charging service:

* `calculate_charging_plan` and `calculate_actual_cost`
  (from `backend/services/planner.py`), and
* the control flow of `DemandForecaster.train` and the per-hour row
  construction of `DemandForecaster.predict`
  (from `backend/services/forecasting.py`).

Modelling conventions:

* Python floats are idealised as `ℚ`; the Python `round(x, n)` (round half to
  even, "banker rounding") is modelled exactly by `roundHalfEven` below.
* Instants (`datetime`) are rationals counting hours since a midnight-aligned
  epoch, so `datetime.utcnow().hour` becomes `nowHour now = ⌊now⌋ % 24` and
  `timedelta(hours=h)` becomes addition.
* The infeasibility warning f-string is abstracted to the triple of numbers it
  reports (required hours, available hours, deficit hours); only its presence
  or absence matters to the claims.
* `Optional[float]` arguments become `Option ℚ`, with Python truthiness
  (`None` and `0.0` are falsy) made explicit where the source branches on it.
-/

/-- the Python `round` to an integer: round half to even (banker rounding),
which is what CPython implements for floats. -/
def roundHalfEven (q : ℚ) : ℤ :=
  if q - ⌊q⌋ < 1/2 then ⌊q⌋
  else if 1/2 < q - ⌊q⌋ then ⌊q⌋ + 1
  else if ⌊q⌋ % 2 = 0 then ⌊q⌋ else ⌊q⌋ + 1

/-- the Python `round(x, 2)`. -/
def round2 (q : ℚ) : ℚ := (roundHalfEven (100 * q) : ℚ) / 100

/-- the Python `round(x, 3)`. -/
def round3 (q : ℚ) : ℚ := (roundHalfEven (1000 * q) : ℚ) / 1000

theorem roundHalfEven_le_floor_add_one (q : ℚ) : roundHalfEven q ≤ ⌊q⌋ + 1 := by
  unfold roundHalfEven
  split_ifs <;> omega

theorem floor_le_roundHalfEven (q : ℚ) : ⌊q⌋ ≤ roundHalfEven q := by
  unfold roundHalfEven
  split_ifs <;> omega

theorem roundHalfEven_mono {x y : ℚ} (h : x ≤ y) :
    roundHalfEven x ≤ roundHalfEven y := by
  have hfl : ⌊x⌋ ≤ ⌊y⌋ := Int.floor_mono h
  rcases eq_or_lt_of_le hfl with heq | hlt
  · unfold roundHalfEven
    rw [← heq]
    split_ifs <;> first | omega | (exfalso; linarith)
  · calc roundHalfEven x ≤ ⌊x⌋ + 1 := roundHalfEven_le_floor_add_one x
      _ ≤ ⌊y⌋ := by omega
      _ ≤ roundHalfEven y := floor_le_roundHalfEven y

theorem roundHalfEven_nonneg {q : ℚ} (h : 0 ≤ q) : 0 ≤ roundHalfEven q := by
  have h0 : (0:ℤ) ≤ ⌊q⌋ := Int.floor_nonneg.mpr h
  have := floor_le_roundHalfEven q
  omega

theorem roundHalfEven_le_add_half (q : ℚ) : (roundHalfEven q : ℚ) ≤ q + 1/2 := by
  have hfl : (⌊q⌋ : ℚ) ≤ q := Int.floor_le q
  unfold roundHalfEven
  split_ifs with h1 h2 h3 <;> push_cast <;> linarith

theorem round2_mono {x y : ℚ} (h : x ≤ y) : round2 x ≤ round2 y := by
  unfold round2
  have : roundHalfEven (100 * x) ≤ roundHalfEven (100 * y) :=
    roundHalfEven_mono (by linarith)
  have hc : (roundHalfEven (100 * x) : ℚ) ≤ (roundHalfEven (100 * y) : ℚ) := by
    exact_mod_cast this
  linarith

theorem round2_nonneg {q : ℚ} (h : 0 ≤ q) : 0 ≤ round2 q := by
  unfold round2
  have : (0:ℤ) ≤ roundHalfEven (100 * q) := roundHalfEven_nonneg (by linarith)
  have hc : (0:ℚ) ≤ (roundHalfEven (100 * q) : ℚ) := by exact_mod_cast this
  linarith

theorem round2_le_add (q : ℚ) : round2 q ≤ q + 1/200 := by
  unfold round2
  have := roundHalfEven_le_add_half (100 * q)
  linarith

/-! ## Data model (from `backend/schemas/did.py` and `backend/schemas/session.py`) -/

/-- The fields of `VehicleDID` that `calculate_charging_plan` reads. -/
structure VehicleDID where
  battery_capacity_kwh : ℚ
  nominal_consumption_wh_per_km : ℚ
  max_charge_power_kw : ℚ
  current_soc_percent : ℚ
deriving DecidableEq

structure TripDetails where
  distance_km : ℚ
  departure_time : ℚ
deriving DecidableEq

/-- The fields of `ChargerDID` that `calculate_charging_plan` reads. -/
structure ChargerDID where
  max_power_kw : ℚ
  current_tariff_eur_per_kwh : ℚ
deriving DecidableEq

structure DriverPreferences where
  priority : String
  carbon_conscious : Bool
deriving DecidableEq

structure IncentiveOffer where
  type : String
  value : ℚ
  reason : String
  time_slot : Option ℚ
deriving DecidableEq

/-- The Battery Birth Certificate claims dictionary; only the
`lifeCycleStatus` key influences the computation (the key may be absent,
hence `Option`). -/
structure BBCClaims where
  lifeCycleStatus : Option String
deriving DecidableEq

/-- `ChargingPlan` output record, fields as in `backend/schemas/session.py`;
`feasibility_warning` is abstracted to the numeric triple the warning string
reports: (required hours, available hours, deficit hours). -/
structure ChargingPlan where
  needed_trip_energy_kwh : ℚ
  current_energy_kwh : ℚ
  extra_energy_needed_kwh : ℚ
  target_soc_percent : ℚ
  planned_duration_hours : ℚ
  planned_finish_time : ℚ
  is_feasible : Bool
  feasibility_warning : Option (ℚ × ℚ × ℚ)
  planned_cost_eur : ℚ
  effective_charge_power_kw : ℚ
  plan_type : String
  incentive_offers : List IncentiveOffer
deriving DecidableEq

/-! ## Planner (from `backend/services/planner.py`) -/

def SAFETY_BUFFER : ℚ := 1.2

def EFFICIENCY_FACTOR : ℚ := 0.85

/-- The `LIFECYCLE_CRATE_LIMITS` dict, as a finite map.  Note the first key is
the string `"IN USE"` (with a space), exactly as in the source. -/
def LIFECYCLE_CRATE_LIMITS (status : String) : Option ℚ :=
  if status = "IN USE" then some 1.5
  else if status = "SECOND_LIFE" then some 0.7
  else if status = "END_OF_LIFE" then some 0.3
  else if status = "UNKNOWN" then some 1.0
  else none

/-- `LIFECYCLE_CRATE_LIMITS.get(lifecycle_status, 1.0)`. -/
def crateLimit (status : String) : ℚ :=
  (LIFECYCLE_CRATE_LIMITS status).getD 1.0

/-- Extraction of `lifecycle_status` from `bbc_claims`
(`bbc_claims.get("lifeCycleStatus", "UNKNOWN")` guarded by `if bbc_claims:`).
A falsy (absent or empty) claims dict and a dict missing the key both yield
`"UNKNOWN"`. -/
def lifecycleStatusOf (bbc_claims : Option BBCClaims) : String :=
  match bbc_claims with
  | some claims => claims.lifeCycleStatus.getD "UNKNOWN"
  | none => "UNKNOWN"

/-- `min(charger.max_power_kw, vehicle.max_charge_power_kw, max_safe_power_kw)
* EFFICIENCY_FACTOR`. -/
def effectivePower (charger_max vehicle_max max_safe : ℚ) : ℚ :=
  min charger_max (min vehicle_max max_safe) * EFFICIENCY_FACTOR

/-- `if forecasted_demand and site_capacity: is_peak = fd/sc > 0.8 else False`.
Python truthiness: `None` and `0.0` are both falsy, so the ratio is only
formed when both optionals are present and nonzero. -/
def isPeakDemand (forecasted_demand site_capacity : Option ℚ) : Bool :=
  match forecasted_demand, site_capacity with
  | some fd, some sc =>
      if fd ≠ 0 ∧ sc ≠ 0 then decide (fd / sc > 0.8) else false
  | _, _ => false

/-- `datetime.utcnow().hour`, for a clock measured in hours since a
midnight-aligned epoch. -/
def nowHour (now : ℚ) : ℤ := ⌊now⌋ % 24

def delayOffer (slot : ℚ) : IncentiveOffer :=
  { type := "discount", value := 15,
    reason := "Delay charging by 2 hours to help balance grid load during peak demand",
    time_slot := some slot }

def greenOffer : IncentiveOffer :=
  { type := "reward_points", value := 50,
    reason := "Charging during solar peak hours (renewable energy available)",
    time_slot := none }

def economyOffer : IncentiveOffer :=
  { type := "discount", value := 10,
    reason := "Off-peak charging discount available",
    time_slot := none }

/-- Step 8 of `calculate_charging_plan`: the sequence of `plan_type`
assignments.  `plan_type` starts as `"STANDARD"`; the solar rule, the speed
rule and the cost rule each overwrite it in this source order when they
fire. -/
def planTypeOf (prefs : DriverPreferences) (is_peak : Bool)
    (effective_power charger_max : ℚ) (now : ℚ) : String :=
  let plan_type := "STANDARD"
  let plan_type :=
    if prefs.carbon_conscious ∧ 10 ≤ nowHour now ∧ nowHour now ≤ 16 then "GREEN"
    else plan_type
  let plan_type :=
    if prefs.priority = "speed" ∧ effective_power < charger_max then "FAST"
    else plan_type
  if prefs.priority = "cost" ∧ is_peak = false then "ECONOMY" else plan_type

/-- Step 8 of `calculate_charging_plan`: the `incentive_offers` list, appended
to in this source order: grid-balancing delay offer, solar reward offer,
economy discount offer. -/
def incentiveOffersOf (prefs : DriverPreferences) (is_peak feasible : Bool)
    (hours_until_departure charge_time_hours now : ℚ) : List IncentiveOffer :=
  (if is_peak ∧ feasible ∧ hours_until_departure > charge_time_hours + 2 then
      [delayOffer (now + 2)]
    else [])
  ++ (if prefs.carbon_conscious ∧ 10 ≤ nowHour now ∧ nowHour now ≤ 16 then
      [greenOffer]
    else [])
  ++ (if prefs.priority = "cost" ∧ is_peak = false then [economyOffer] else [])

/-- `calculate_charging_plan`, with `now` the value of `datetime.utcnow()`
in hours. -/
def calculate_charging_plan (vehicle : VehicleDID) (trip : TripDetails)
    (charger : ChargerDID) (driver_preferences : DriverPreferences)
    (forecasted_demand : Option ℚ) (site_capacity : Option ℚ)
    (bbc_claims : Option BBCClaims) (now : ℚ) : ChargingPlan :=
  let lifecycle_status := lifecycleStatusOf bbc_claims
  let needed_trip_energy :=
    trip.distance_km * vehicle.nominal_consumption_wh_per_km / 1000 * SAFETY_BUFFER
  let current_energy :=
    vehicle.battery_capacity_kwh * vehicle.current_soc_percent / 100
  let extra_energy := max 0 (needed_trip_energy - current_energy)
  let target_soc :=
    if extra_energy = 0 then vehicle.current_soc_percent
    else min 100 ((current_energy + extra_energy) / vehicle.battery_capacity_kwh * 100)
  let max_safe_power_kw := crateLimit lifecycle_status * vehicle.battery_capacity_kwh
  let effective_power :=
    effectivePower charger.max_power_kw vehicle.max_charge_power_kw max_safe_power_kw
  let charge_time_hours :=
    if effective_power > 0 ∧ extra_energy > 0 then extra_energy / effective_power else 0
  let finish_time := now + charge_time_hours
  let is_feasible := decide (finish_time ≤ trip.departure_time)
  let feasibility_warning : Option (ℚ × ℚ × ℚ) :=
    if is_feasible then none
    else some (charge_time_hours, trip.departure_time - now,
               finish_time - trip.departure_time)
  let base_cost := extra_energy * charger.current_tariff_eur_per_kwh
  let is_peak_demand := isPeakDemand forecasted_demand site_capacity
  let hours_until_departure := trip.departure_time - now
  let plan_type :=
    planTypeOf driver_preferences is_peak_demand effective_power charger.max_power_kw now
  let incentive_offers :=
    incentiveOffersOf driver_preferences is_peak_demand is_feasible
      hours_until_departure charge_time_hours now
  { needed_trip_energy_kwh := needed_trip_energy
    current_energy_kwh := current_energy
    extra_energy_needed_kwh := extra_energy
    target_soc_percent := round2 target_soc
    planned_duration_hours := round3 charge_time_hours
    planned_finish_time := finish_time
    is_feasible := is_feasible
    feasibility_warning := feasibility_warning
    planned_cost_eur := round2 base_cost
    effective_charge_power_kw := round2 effective_power
    plan_type := plan_type
    incentive_offers := incentive_offers }

/-- `calculate_actual_cost`. -/
def calculate_actual_cost (planned_cost energy_delivered_kwh planned_energy_kwh
    discount_percent : ℚ) : ℚ :=
  let actual_cost :=
    if planned_energy_kwh > 0 then
      planned_cost * (energy_delivered_kwh / planned_energy_kwh)
    else 0
  let actual_cost :=
    if discount_percent > 0 then actual_cost * (1 - discount_percent / 100)
    else actual_cost
  round2 actual_cost

/-! ## Demand forecaster (from `backend/services/forecasting.py`) -/

/-- A historical `ChargingSession` row as the forecaster reads it: its
completion status and its (possibly null) delivered energy. -/
structure SessionRecord where
  status : String
  energy_delivered_kwh : Option ℚ
deriving DecidableEq

/-- The filter in `DemandForecaster.train`:
`status == "completed"` and `energy_delivered_kwh.isnot(None)`. -/
def usableRecord (s : SessionRecord) : Bool :=
  s.status == "completed" && s.energy_delivered_kwh.isSome

/-- The persisted artifact `{model, site_encoder, feature_cols}`; the fitted
random forest is abstracted to the session rows it was fitted on, which is
all the guard logic of `train` depends on. -/
structure ModelArtifact where
  trainedOn : List SessionRecord
deriving DecidableEq

/-- Control flow of `DemandForecaster.train` around the fit: filter the usable
sessions, raise `ValueError` ("InsufficientDataError" in the taxonomy of the spec)
when fewer than 100 remain, otherwise fit and overwrite the stored artifact
(`joblib.dump` to `model_path`).  Returns the outcome together with the state
of the artifact store after the call. -/
def train (records : List SessionRecord) (store : Option ModelArtifact) :
    Except String ModelArtifact × Option ModelArtifact :=
  let sessions := records.filter usableRecord
  if sessions.length < 100 then
    (Except.error "Insufficient training data. Need at least 100 completed sessions.",
     store)
  else
    (Except.ok ⟨sessions⟩, some ⟨sessions⟩)

/-- `np.mean` over the per-tree predictions. -/
def treeMean (preds : List ℚ) : ℚ := preds.sum / preds.length

/-- `np.std(..., axis=0)` squared: the population variance of the per-tree
predictions (the numpy default `ddof=0`).  The standard deviation itself is
irrational in general; theorems take it as a nonnegative `std` with
`std * std = treeVariance preds`. -/
def treeVariance (preds : List ℚ) : ℚ :=
  ((preds.map fun x => (x - treeMean preds) ^ 2).sum) / preds.length

/-- the Python `int(...)` on a float: truncation toward zero. -/
def pyInt (q : ℚ) : ℤ := if 0 ≤ q then ⌊q⌋ else ⌈q⌉

/-- One row of the list returned by `DemandForecaster.predict`; the fields
that depend on `time_slot` only through the model inputs are omitted. -/
structure ForecastPoint where
  predicted_total_kwh : ℚ
  predicted_active_sessions : ℤ
  confidence_lower : ℚ
  confidence_upper : ℚ
deriving DecidableEq

/-- The per-hour result construction in `DemandForecaster.predict`, given the
ensemble point prediction `pred` and the inter-tree standard deviation
`std`. -/
def buildForecastPoint (pred std : ℚ) : ForecastPoint :=
  { predicted_total_kwh := max 0 (round2 pred)
    predicted_active_sessions := max 1 (pyInt (pred / 30))
    confidence_lower := max 0 (round2 (pred - 1.96 * std))
    confidence_upper := round2 (pred + 1.96 * std) }

/-! ## Helper lemmas -/

theorem crateLimit_in_use : crateLimit "IN USE" = 3/2 := by
  norm_num [crateLimit, LIFECYCLE_CRATE_LIMITS]

theorem crateLimit_unknown : crateLimit "UNKNOWN" = 1 := by
  unfold crateLimit LIFECYCLE_CRATE_LIMITS
  rw [if_neg (by decide), if_neg (by decide), if_neg (by decide), if_pos rfl]
  norm_num

theorem crateLimit_pos (s : String) : 0 < crateLimit s := by
  unfold crateLimit LIFECYCLE_CRATE_LIMITS
  split_ifs <;> norm_num

/-- The stored `effective_charge_power_kw` field is the unrounded effective
power rounded to 2 decimals. -/
theorem plan_effective_field (vehicle : VehicleDID) (trip : TripDetails)
    (charger : ChargerDID) (prefs : DriverPreferences) (fd sc : Option ℚ)
    (bbc : Option BBCClaims) (now : ℚ) :
    (calculate_charging_plan vehicle trip charger prefs fd sc bbc now).effective_charge_power_kw
      = round2 (effectivePower charger.max_power_kw vehicle.max_charge_power_kw
          (crateLimit (lifecycleStatusOf bbc) * vehicle.battery_capacity_kwh)) := by
  simp only [calculate_charging_plan]

/-! ## Claims -/

/-- C1 (counterexample): on the Scenario B inputs (capacity 75 kWh,
consumption 180 Wh/km, vehicle max 150 kW, SoC 35 %, distance 300 km, charger
max 150 kW, lifecycle "IN USE", clock at hour 0) the stored
`effective_charge_power_kw` is NOT 95.625: the computed effective power
95.625 kW is stored rounded to two decimals (banker rounding), as 95.62. -/
theorem scenario_b_effective_field_ne :
    (calculate_charging_plan ⟨75, 180, 150, 35⟩ ⟨300, 1000⟩ ⟨150, 35/100⟩
      ⟨"carbon", false⟩ none none (some ⟨some "IN USE"⟩) 0).effective_charge_power_kw
      ≠ 95625/1000 := by
  simp only [calculate_charging_plan, lifecycleStatusOf, effectivePower,
    isPeakDemand, nowHour, SAFETY_BUFFER, EFFICIENCY_FACTOR, crateLimit_in_use,
    Option.getD]
  norm_num [round2, roundHalfEven]

/-- C1 (amended): for an "IN USE" battery the C-rate limit is 1.5, so the
lifecycle power limit is 1.5 × 75 = 112.5 kW; on the Scenario B inputs the
plan has `needed_trip_energy_kwh` = 64.8, `extra_energy_needed_kwh` = 38.55,
effective power min(150, 150, 112.5) × 0.85 = 95.625 kW stored as
`effective_charge_power_kw` = 95.62 (rounded to 2 decimals),
`planned_duration_hours` = 0.403 and `target_soc_percent` = 86.4. -/
theorem scenario_b_plan_values :
    crateLimit "IN USE" = 3/2 ∧
    crateLimit "IN USE" * 75 = 225/2 ∧
    (calculate_charging_plan ⟨75, 180, 150, 35⟩ ⟨300, 1000⟩ ⟨150, 35/100⟩
      ⟨"carbon", false⟩ none none (some ⟨some "IN USE"⟩) 0).needed_trip_energy_kwh
      = 324/5 ∧
    (calculate_charging_plan ⟨75, 180, 150, 35⟩ ⟨300, 1000⟩ ⟨150, 35/100⟩
      ⟨"carbon", false⟩ none none (some ⟨some "IN USE"⟩) 0).extra_energy_needed_kwh
      = 771/20 ∧
    (calculate_charging_plan ⟨75, 180, 150, 35⟩ ⟨300, 1000⟩ ⟨150, 35/100⟩
      ⟨"carbon", false⟩ none none (some ⟨some "IN USE"⟩) 0).effective_charge_power_kw
      = 4781/50 ∧
    (calculate_charging_plan ⟨75, 180, 150, 35⟩ ⟨300, 1000⟩ ⟨150, 35/100⟩
      ⟨"carbon", false⟩ none none (some ⟨some "IN USE"⟩) 0).planned_duration_hours
      = 403/1000 ∧
    (calculate_charging_plan ⟨75, 180, 150, 35⟩ ⟨300, 1000⟩ ⟨150, 35/100⟩
      ⟨"carbon", false⟩ none none (some ⟨some "IN USE"⟩) 0).target_soc_percent
      = 432/5 := by
  refine ⟨by rw [crateLimit_in_use], by rw [crateLimit_in_use]; norm_num, ?_, ?_, ?_, ?_, ?_⟩ <;>
  · simp only [calculate_charging_plan, lifecycleStatusOf, effectivePower,
      isPeakDemand, nowHour, SAFETY_BUFFER, EFFICIENCY_FACTOR, crateLimit_in_use,
      Option.getD]
    norm_num [round2, round3, roundHalfEven]

/-- C2 (counterexample): with positive inputs charger max = 0.006 kW, vehicle
max = 150 kW, capacity = 75 kWh (lifecycle UNKNOWN, limit 75 kW), the
unrounded effective power is 0.006 × 0.85 = 0.0051 kW, whose stored rounding
0.01 kW exceeds min(0.006, 150, 75) = 0.006: the stored field violates the
claimed three-way bound. -/
theorem effective_power_rounded_exceeds_limit :
    (calculate_charging_plan ⟨75, 180, 150, 35⟩ ⟨300, 1000⟩ ⟨3/500, 35/100⟩
      ⟨"carbon", false⟩ none none none 0).effective_charge_power_kw = 1/100
    ∧ ¬ ((1 : ℚ)/100
          ≤ min (3/500) (min 150 (crateLimit (lifecycleStatusOf none) * 75))) := by
  constructor
  · simp only [calculate_charging_plan, lifecycleStatusOf, effectivePower,
      EFFICIENCY_FACTOR, crateLimit_unknown, Option.getD]
    norm_num [round2, roundHalfEven]
  · simp only [lifecycleStatusOf, crateLimit_unknown]
    norm_num

/-- C2 (amended): for positive charger max, vehicle max and capacity, the
unrounded effective power `min(charger, vehicle, lifecycle_limit) * 0.85`
never exceeds the three-way minimum; the stored 2-decimal field can exceed it
by at most 0.005 kW (half an ulp of the rounding step). -/
theorem effective_power_three_way_min (vehicle : VehicleDID) (trip : TripDetails)
    (charger : ChargerDID) (prefs : DriverPreferences) (fd sc : Option ℚ)
    (bbc : Option BBCClaims) (now : ℚ)
    (hc : 0 < charger.max_power_kw) (hv : 0 < vehicle.max_charge_power_kw)
    (hcap : 0 < vehicle.battery_capacity_kwh) :
    effectivePower charger.max_power_kw vehicle.max_charge_power_kw
        (crateLimit (lifecycleStatusOf bbc) * vehicle.battery_capacity_kwh)
      ≤ min charger.max_power_kw (min vehicle.max_charge_power_kw
          (crateLimit (lifecycleStatusOf bbc) * vehicle.battery_capacity_kwh))
    ∧ (calculate_charging_plan vehicle trip charger prefs fd sc bbc now).effective_charge_power_kw
      ≤ min charger.max_power_kw (min vehicle.max_charge_power_kw
          (crateLimit (lifecycleStatusOf bbc) * vehicle.battery_capacity_kwh)) + 1/200 := by
  have hsafe : 0 < crateLimit (lifecycleStatusOf bbc) * vehicle.battery_capacity_kwh :=
    mul_pos (crateLimit_pos _) hcap
  have hm : 0 < min charger.max_power_kw (min vehicle.max_charge_power_kw
      (crateLimit (lifecycleStatusOf bbc) * vehicle.battery_capacity_kwh)) :=
    lt_min hc (lt_min hv hsafe)
  have h1 : effectivePower charger.max_power_kw vehicle.max_charge_power_kw
      (crateLimit (lifecycleStatusOf bbc) * vehicle.battery_capacity_kwh)
      ≤ min charger.max_power_kw (min vehicle.max_charge_power_kw
          (crateLimit (lifecycleStatusOf bbc) * vehicle.battery_capacity_kwh)) := by
    unfold effectivePower EFFICIENCY_FACTOR
    have h85 : (0.85 : ℚ) = 17/20 := by norm_num
    rw [h85]
    linarith
  refine ⟨h1, ?_⟩
  rw [plan_effective_field]
  have h2 := round2_le_add (effectivePower charger.max_power_kw vehicle.max_charge_power_kw
    (crateLimit (lifecycleStatusOf bbc) * vehicle.battery_capacity_kwh))
  linarith

/-- Witness for C2: `effective_power_three_way_min` at the Scenario A/B
vehicle and charger. -/
theorem effective_power_three_way_min_witness :
    effectivePower (150 : ℚ) 150 (crateLimit (lifecycleStatusOf none) * 75)
      ≤ min (150 : ℚ) (min 150 (crateLimit (lifecycleStatusOf none) * 75))
    ∧ (calculate_charging_plan ⟨75, 180, 150, 35⟩ ⟨300, 1000⟩ ⟨150, 35/100⟩
        ⟨"carbon", false⟩ none none none 0).effective_charge_power_kw
      ≤ min (150 : ℚ) (min 150 (crateLimit (lifecycleStatusOf none) * 75)) + 1/200 :=
  effective_power_three_way_min ⟨75, 180, 150, 35⟩ ⟨300, 1000⟩ ⟨150, 35/100⟩
    ⟨"carbon", false⟩ none none none 0 (by norm_num) (by norm_num) (by norm_num)

/-- C4: every forecast row satisfies
`confidence_lower ≤ predicted_total_kwh ≤ confidence_upper`, given that the
per-tree predictions are nonnegative (training targets are nonnegative energy
totals) and `std` is the nonnegative inter-tree standard deviation. -/
theorem forecast_confidence_sandwich (preds : List ℚ) (std : ℚ)
    (hne : preds ≠ []) (hnn : ∀ x ∈ preds, 0 ≤ x)
    (hvar : std * std = treeVariance preds) (hstd : 0 ≤ std) :
    (buildForecastPoint (treeMean preds) std).confidence_lower
      ≤ (buildForecastPoint (treeMean preds) std).predicted_total_kwh
    ∧ (buildForecastPoint (treeMean preds) std).predicted_total_kwh
      ≤ (buildForecastPoint (treeMean preds) std).confidence_upper := by
  have hsum : 0 ≤ preds.sum := List.sum_nonneg hnn
  have hmean : 0 ≤ treeMean preds := div_nonneg hsum (by positivity)
  simp only [buildForecastPoint]
  constructor
  · exact max_le_max le_rfl (round2_mono (by nlinarith))
  · apply max_le
    · exact round2_nonneg (by nlinarith)
    · exact round2_mono (by nlinarith)

/-- Witness for C4: two trees predicting 10 and 20 kWh give mean 15,
variance 25, standard deviation 5; the bounds of the row bracket the point
forecast. -/
theorem forecast_confidence_sandwich_witness :
    (buildForecastPoint (treeMean [10, 20]) 5).confidence_lower
      ≤ (buildForecastPoint (treeMean [10, 20]) 5).predicted_total_kwh
    ∧ (buildForecastPoint (treeMean [10, 20]) 5).predicted_total_kwh
      ≤ (buildForecastPoint (treeMean [10, 20]) 5).confidence_upper :=
  forecast_confidence_sandwich [10, 20] 5 (by simp)
    (by intro x hx; simp at hx; rcases hx with rfl | rfl <;> norm_num)
    (by norm_num [treeVariance, treeMean]) (by norm_num)

/-- C5: a charging plan is always returned as a value (the planner is a total
function, infeasibility raises nothing); `is_feasible` holds exactly when
`planned_finish_time ≤ trip.departure_time`, and `feasibility_warning` is
populated exactly when `is_feasible` is false. -/
theorem plan_feasibility_iff (vehicle : VehicleDID) (trip : TripDetails)
    (charger : ChargerDID) (prefs : DriverPreferences) (fd sc : Option ℚ)
    (bbc : Option BBCClaims) (now : ℚ) :
    ((calculate_charging_plan vehicle trip charger prefs fd sc bbc now).is_feasible = true
      ↔ (calculate_charging_plan vehicle trip charger prefs fd sc bbc now).planned_finish_time
          ≤ trip.departure_time)
    ∧ ((calculate_charging_plan vehicle trip charger prefs fd sc bbc now).feasibility_warning
          = none
      ↔ (calculate_charging_plan vehicle trip charger prefs fd sc bbc now).is_feasible = true) := by
  simp only [calculate_charging_plan]
  refine ⟨by simp [decide_eq_true_eq], ?_⟩
  split_ifs with h1 h2 h3 <;> simp_all

/-- C8 (counterexample): with zero planned energy (and delivered energy equal
to it), `calculate_actual_cost` returns 0, not the planned cost: at
`planned_cost = 5`, `E = 0` the result is 0 ≠ 5. -/
theorem actual_cost_zero_planned_energy :
    calculate_actual_cost 5 0 0 0 = 0 ∧ (0 : ℚ) ≠ 5 := by
  constructor
  · simp only [calculate_actual_cost]
    norm_num [round2, roundHalfEven]
  · norm_num

/-- C8 (amended): for every `planned_cost` and every *positive* energy amount
`E`, `calculate_actual_cost planned_cost E E 0` returns `planned_cost`
rounded to 2 decimals; at `E = 0` the `planned_energy > 0` guard makes the
result 0 instead. -/
theorem actual_cost_full_delivery (planned_cost E : ℚ) (hE : 0 < E) :
    calculate_actual_cost planned_cost E E 0 = round2 planned_cost := by
  simp only [calculate_actual_cost]
  rw [if_pos hE, if_neg (lt_irrefl 0), div_self (ne_of_gt hE), mul_one]

/-- Witness for C8: concrete instance of `actual_cost_full_delivery`. -/
theorem actual_cost_full_delivery_witness :
    calculate_actual_cost 10 5 5 0 = round2 10 ∧ round2 10 = 10 :=
  ⟨actual_cost_full_delivery 10 5 (by norm_num), by norm_num [round2, roundHalfEven]⟩

/-- C7: training fails (the `ValueError` the spec calls
`InsufficientDataError`) exactly when fewer than 100 usable records —
completed, with non-null delivered energy — are available, and in that case
the stored artifact is unchanged: nothing is fitted or published. -/
theorem train_insufficient_iff (records : List SessionRecord)
    (store : Option ModelArtifact) :
    ((train records store).1
        = Except.error "Insufficient training data. Need at least 100 completed sessions."
      ↔ (records.filter usableRecord).length < 100)
    ∧ ((records.filter usableRecord).length < 100 → (train records store).2 = store) := by
  unfold train
  by_cases h : (records.filter usableRecord).length < 100 <;> simp [h]

/-- Witness for C7 (Scenario E): 50 usable records (all completed, energy
non-null) make training fail and leave the (empty) artifact store unchanged. -/
theorem train_insufficient_iff_witness :
    (train (List.replicate 50 ⟨"completed", some 25⟩) none).1
        = Except.error "Insufficient training data. Need at least 100 completed sessions."
    ∧ (train (List.replicate 50 ⟨"completed", some 25⟩) none).2 = none :=
  ⟨(train_insufficient_iff (List.replicate 50 ⟨"completed", some 25⟩) none).1.mpr
      (by decide),
   (train_insufficient_iff (List.replicate 50 ⟨"completed", some 25⟩) none).2
      (by decide)⟩

/-- C9 (counterexample): at an hourly point forecast of 59 kWh (all trees
agreeing, σ = 0) the code reports `max(1, int(59/30)) = 1` active sessions,
while rounding to the nearest integer as the claim states would give
`max(1, round(59/30)) = 2`. -/
theorem sessions_truncation :
    (buildForecastPoint (treeMean [59]) 0).predicted_active_sessions = 1
    ∧ max 1 (roundHalfEven (59/30)) = 2 := by
  constructor
  · simp only [buildForecastPoint, treeMean, pyInt]
    norm_num
  · norm_num [roundHalfEven]

/-- C9 (amended): every forecast row reports
`predicted_active_sessions = max(1, int(mean/30))`, where the Python `int`
truncates toward zero (it does not round to nearest); in particular the value
is always at least 1. -/
theorem sessions_formula (pred std : ℚ) :
    (buildForecastPoint pred std).predicted_active_sessions
      = max 1 (pyInt (pred / 30))
    ∧ 1 ≤ (buildForecastPoint pred std).predicted_active_sessions := by
  exact ⟨rfl, le_max_left _ _⟩

/-- C3 (counterexample): carbon-conscious driver, clock hour 12 (inside the
solar window), priority "cost", no peak demand: the returned `plan_type` is
"ECONOMY", not "GREEN" — the cost rule, evaluated after the carbon rule,
overwrites it. -/
theorem cost_rule_overrides_green :
    (calculate_charging_plan ⟨75, 180, 150, 35⟩ ⟨300, 1000⟩ ⟨150, 35/100⟩
      ⟨"cost", true⟩ none none none 12).plan_type = "ECONOMY"
    ∧ "ECONOMY" ≠ "GREEN" := by
  constructor
  · simp only [calculate_charging_plan, planTypeOf, isPeakDemand, nowHour]
    norm_num
  · decide

/-- C3 (amended): when several plan-type rules fire the LAST one wins — cost
overrides speed overrides carbon, the reverse of the claimed precedence.  With
carbon-conscious true in the solar window: priority "cost" with no peak
demand yields "ECONOMY", and priority "speed" with power below the charger
maximum yields "FAST"; in both cases the solar reward offer is still
appended. -/
theorem plan_type_last_rule_wins (vehicle : VehicleDID) (trip : TripDetails)
    (charger : ChargerDID) (prefs : DriverPreferences) (fd sc : Option ℚ)
    (bbc : Option BBCClaims) (now : ℚ) :
    (prefs.carbon_conscious = true → 10 ≤ nowHour now → nowHour now ≤ 16 →
      prefs.priority = "cost" → isPeakDemand fd sc = false →
      (calculate_charging_plan vehicle trip charger prefs fd sc bbc now).plan_type = "ECONOMY"
      ∧ greenOffer ∈ (calculate_charging_plan vehicle trip charger prefs fd sc bbc now).incentive_offers)
    ∧ (prefs.carbon_conscious = true → 10 ≤ nowHour now → nowHour now ≤ 16 →
      prefs.priority = "speed" →
      effectivePower charger.max_power_kw vehicle.max_charge_power_kw
          (crateLimit (lifecycleStatusOf bbc) * vehicle.battery_capacity_kwh)
        < charger.max_power_kw →
      (calculate_charging_plan vehicle trip charger prefs fd sc bbc now).plan_type = "FAST"
      ∧ greenOffer ∈ (calculate_charging_plan vehicle trip charger prefs fd sc bbc now).incentive_offers) := by
  constructor
  · intro h1 h2 h3 h4 h5
    constructor
    · simp only [calculate_charging_plan, planTypeOf]
      simp [h1, h2, h3, h4, h5]
    · simp only [calculate_charging_plan, incentiveOffersOf]
      simp [h1, h2, h3]
  · intro h1 h2 h3 h4 h5
    constructor
    · simp only [calculate_charging_plan, planTypeOf]
      simp [h1, h2, h3, h4, h5]
    · simp only [calculate_charging_plan, incentiveOffersOf]
      simp [h1, h2, h3]

/-- Witness for C3: both precedence cases at concrete inputs — priority
"cost" (hour 12, no forecast) gives "ECONOMY"; priority "speed" with a
lifecycle-limited 63.75 kW < 150 kW gives "FAST"; the solar reward offer is
present in both plans. -/
theorem plan_type_last_rule_wins_witness :
    ((calculate_charging_plan ⟨75, 180, 150, 35⟩ ⟨300, 1000⟩ ⟨150, 35/100⟩
        ⟨"cost", true⟩ none none none 12).plan_type = "ECONOMY"
      ∧ greenOffer ∈ (calculate_charging_plan ⟨75, 180, 150, 35⟩ ⟨300, 1000⟩
          ⟨150, 35/100⟩ ⟨"cost", true⟩ none none none 12).incentive_offers)
    ∧ ((calculate_charging_plan ⟨75, 180, 150, 35⟩ ⟨300, 1000⟩ ⟨150, 35/100⟩
        ⟨"speed", true⟩ none none none 12).plan_type = "FAST"
      ∧ greenOffer ∈ (calculate_charging_plan ⟨75, 180, 150, 35⟩ ⟨300, 1000⟩
          ⟨150, 35/100⟩ ⟨"speed", true⟩ none none none 12).incentive_offers) :=
  ⟨(plan_type_last_rule_wins ⟨75, 180, 150, 35⟩ ⟨300, 1000⟩ ⟨150, 35/100⟩
      ⟨"cost", true⟩ none none none 12).1 rfl (by norm_num [nowHour])
      (by norm_num [nowHour]) rfl rfl,
   (plan_type_last_rule_wins ⟨75, 180, 150, 35⟩ ⟨300, 1000⟩ ⟨150, 35/100⟩
      ⟨"speed", true⟩ none none none 12).2 rfl (by norm_num [nowHour])
      (by norm_num [nowHour]) rfl
      (by norm_num [effectivePower, EFFICIENCY_FACTOR, lifecycleStatusOf, crateLimit_unknown])⟩

/-- C6 (counterexample): at clock hour 16 — outside the claimed half-open
window [10,16) — a carbon-conscious driver still triggers the solar rule:
the bound in the code is inclusive (`10 <= current_hour <= 16`), so
`plan_type` is "GREEN" and the 50-point reward offer is appended. -/
theorem solar_rule_fires_at_hour_16 :
    nowHour 16 = 16
    ∧ (calculate_charging_plan ⟨75, 180, 150, 35⟩ ⟨300, 1000⟩ ⟨150, 35/100⟩
        ⟨"carbon", true⟩ none none none 16).plan_type = "GREEN"
    ∧ greenOffer ∈ (calculate_charging_plan ⟨75, 180, 150, 35⟩ ⟨300, 1000⟩
        ⟨150, 35/100⟩ ⟨"carbon", true⟩ none none none 16).incentive_offers := by
  refine ⟨by norm_num [nowHour], ?_, ?_⟩
  · simp only [calculate_charging_plan, planTypeOf, isPeakDemand, nowHour]
    norm_num
    simp
  · simp only [calculate_charging_plan, incentiveOffersOf, nowHour]
    norm_num

/-- C6 (amended): the solar incentive rule fires exactly when
`carbon_conscious` holds and the current hour `h` satisfies `10 ≤ h ≤ 16`
(inclusive upper bound, not the claimed `h < 16`); firing appends the
50-point reward offer (and sets `plan_type` to GREEN, which a later speed or
cost rule may overwrite). -/
theorem green_offer_iff (vehicle : VehicleDID) (trip : TripDetails)
    (charger : ChargerDID) (prefs : DriverPreferences) (fd sc : Option ℚ)
    (bbc : Option BBCClaims) (now : ℚ) :
    greenOffer ∈ (calculate_charging_plan vehicle trip charger prefs fd sc bbc now).incentive_offers
      ↔ (prefs.carbon_conscious = true ∧ 10 ≤ nowHour now ∧ nowHour now ≤ 16) := by
  simp only [calculate_charging_plan, incentiveOffersOf, List.mem_append]
  split_ifs with h1 h2 h3 <;>
    simp_all [greenOffer, delayOffer, economyOffer]

/-- C10: when `forecasted_demand` or `site_capacity` is absent or zero
(Python-falsy), the demand ratio is never formed: `is_peak_demand` stays
false, the plan is identical to one computed with no forecast at all, and no
15 % grid-balancing discount offer appears; a complete plan is still
returned. -/
theorem missing_forecast_no_peak (vehicle : VehicleDID) (trip : TripDetails)
    (charger : ChargerDID) (prefs : DriverPreferences) (fd sc : Option ℚ)
    (bbc : Option BBCClaims) (now : ℚ)
    (h : fd = none ∨ fd = some 0 ∨ sc = none ∨ sc = some 0) :
    isPeakDemand fd sc = false
    ∧ calculate_charging_plan vehicle trip charger prefs fd sc bbc now
        = calculate_charging_plan vehicle trip charger prefs none none bbc now
    ∧ ∀ o ∈ (calculate_charging_plan vehicle trip charger prefs fd sc bbc now).incentive_offers,
        o.value ≠ 15 := by
  have hpk : isPeakDemand fd sc = false := by
    unfold isPeakDemand
    rcases h with rfl | rfl | rfl | rfl
    · cases sc <;> rfl
    · cases sc <;> simp
    · cases fd <;> rfl
    · cases fd <;> simp
  have hpk0 : isPeakDemand (none : Option ℚ) (none : Option ℚ) = false := rfl
  refine ⟨hpk, ?_, ?_⟩
  · simp only [calculate_charging_plan, hpk, hpk0]
  · intro o ho
    simp only [calculate_charging_plan, incentiveOffersOf, hpk,
      List.mem_append] at ho
    rcases ho with (ho | ho) | ho
    · simp at ho
    · rcases (by split_ifs at ho <;> simp_all : o = greenOffer) with rfl
      norm_num [greenOffer]
    · rcases (by split_ifs at ho <;> simp_all : o = economyOffer) with rfl
      norm_num [economyOffer]

/-- Witness for C10: concrete call with a present but zero
`forecasted_demand` and a nonzero `site_capacity`. -/
theorem missing_forecast_no_peak_witness :
    isPeakDemand (some 0) (some 500) = false
    ∧ calculate_charging_plan ⟨75, 180, 150, 35⟩ ⟨300, 1000⟩ ⟨150, 35/100⟩
        ⟨"carbon", false⟩ (some 0) (some 500) none 0
      = calculate_charging_plan ⟨75, 180, 150, 35⟩ ⟨300, 1000⟩ ⟨150, 35/100⟩
        ⟨"carbon", false⟩ none none none 0
    ∧ ∀ o ∈ (calculate_charging_plan ⟨75, 180, 150, 35⟩ ⟨300, 1000⟩
        ⟨150, 35/100⟩ ⟨"carbon", false⟩ (some 0) (some 500) none 0).incentive_offers,
        o.value ≠ 15 :=
  missing_forecast_no_peak ⟨75, 180, 150, 35⟩ ⟨300, 1000⟩ ⟨150, 35/100⟩
    ⟨"carbon", false⟩ (some 0) (some 500) none 0 (Or.inr (Or.inl rfl))
